import Mathlib

/-!
Verification development for the agent-orchestration repository
(`src/core/agent.py`, `src/llm/gateway.py`, `src/runtime/exectutor.py`,
`src/tools/file_tools.py`, `src/tools/code_tools.py`).

The Python source is shallowly embedded: pure computations become Lean
functions, the stateful pieces (the conversation loop, the file store,
the container runtime) become explicit state passing, and Python
exceptions become `Except String` values carrying `str(e)`.
External effects (the POSIX filesystem reached through `aiofiles`,
the Docker daemon reached through `docker-py`, the LLM provider reached
through `litellm`) are modelled as explicit behaviour parameters, with
the embedded code translated line by line from the source.
-/

/-- A single quote character, used when embedding Python f-strings that
quote names. -/
def sQuote : String := String.singleton (Char.ofNat 39)

/- ====================================================================
   Path model: `FileTool._validate_path` (src/tools/file_tools.py 14-22)

   `full_path = (self.workspace_path / filepath).resolve()` followed by
   `if not str(full_path).startswith(str(self.workspace_path))`.

   An absolute POSIX path is a list of segments.  `pathlib` joining of
   an absolute `filepath` discards the left operand; `resolve()` is the
   lexical normalization (the workspaces contain no symlinks).
   ==================================================================== -/

/-- Split a POSIX path string at every slash, keeping the raw segments. -/
def splitSegsAux : List Char → List Char → List String
  | [], acc => [String.mk acc.reverse]
  | c :: cs, acc =>
    if c = '/' then String.mk acc.reverse :: splitSegsAux cs []
    else splitSegsAux cs (c :: acc)

/-- The non-empty segments of a path string. -/
def splitPath (s : String) : List String :=
  (splitSegsAux s.toList []).filter (fun t => t ≠ "")

/-- Python `PurePosixPath.is_absolute`: the string starts with a slash. -/
def isAbsolutePath (s : String) : Bool :=
  match s.toList with
  | [] => false
  | c :: _ => c = '/'

/-- Lexical `Path.resolve()`: drop `.` segments, let `..` pop the last
segment (at the filesystem root `..` stays at the root). -/
def normalizeSegs (segs : List String) : List String :=
  segs.foldl
    (fun acc s =>
      if s = "." then acc
      else if s = ".." then acc.dropLast
      else acc ++ [s])
    []

/-- `(self.workspace_path / filepath).resolve()`: if `filepath` is
absolute it replaces the workspace path, otherwise it is appended;
then the result is canonicalized.  `root` is the already-canonical
segment list of `self.workspace_path`. -/
def joinResolve (root : List String) (filepath : String) : List String :=
  if isAbsolutePath filepath then normalizeSegs (splitPath filepath)
  else normalizeSegs (root ++ splitPath filepath)

/-- The characters of `str(path)` for an absolute path: a slash before
every segment. -/
def pathChars : List String → List Char
  | [] => []
  | s :: rest => '/' :: s.toList ++ pathChars rest

/-- `str(path)` for an absolute POSIX path (the root prints as a bare
slash). -/
def pathStr (l : List String) : String :=
  match l with
  | [] => "/"
  | _ => String.mk (pathChars l)

/-- Python `str.startswith`: the second string is a literal character
prefix of the first. -/
def pyStartsWith (s pre : String) : Bool :=
  pre.toList.isPrefixOf s.toList

/-- `str(ValueError)` raised by `_validate_path`. -/
def accessDenied (filepath : String) : String :=
  "Access denied: " ++ filepath ++ " is outside workspace"

/-- `FileTool._validate_path` (file_tools.py 14-22): resolve the path
against the workspace root and reject it when the resolved string does
not start with the workspace root string. -/
def validate_path (root : List String) (filepath : String) :
    Except String (List String) :=
  let full := joinResolve root filepath
  if pyStartsWith (pathStr full) (pathStr root) then Except.ok full
  else Except.error (accessDenied filepath)

/-- The containment notion used by the specification: `p` lies strictly
below `root` (it extends `root` by at least one segment). -/
def isStrictDescendant (p root : List String) : Bool :=
  root.isPrefixOf p && p ≠ root

/- ====================================================================
   Workspace state.  The POSIX tree under the workspace root is a store
   of files (absolute segment list ↦ stored text) plus a set of
   directories.  The source opens files in text mode with the default
   `newline=None`: on write, each `\n` becomes `os.linesep` — the
   identity on the POSIX hosts this system targets — so the store keeps
   the written `String` unchanged; on read, universal-newline mode
   translates every `\r\n` and every lone `\r` into `\n`
   (`pyReadText` below).
   ==================================================================== -/

/-- The filesystem reached through the workspace guard: text files keyed
by absolute path, plus the set of created directories. -/
structure FS where
  files : List (List String × String)
  dirs : List (List String)
deriving DecidableEq

/-- Lookup of a file by path (the most recent write wins). -/
def fsGet (files : List (List String × String)) (k : List String) :
    Option String :=
  match files with
  | [] => none
  | (k2, v) :: rest => if k2 = k then some v else fsGet rest k

/-- Overwriting write of a file. -/
def fsSet (files : List (List String × String)) (k : List String)
    (v : String) : List (List String × String) :=
  (k, v) :: files

/-- Removal of a file (for `unlink`). -/
def fsErase (files : List (List String × String)) (k : List String) :
    List (List String × String) :=
  files.filter (fun kv => kv.1 ≠ k)

/-- The proper ancestors of a path, nearest the root first (used for
`path.parent.mkdir(parents=True, exist_ok=True)`). -/
def properAncestors (q : List String) : List (List String) :=
  (List.range q.length).map (fun n => q.take n)

/-- Add directories to the directory set without duplicating. -/
def addDirs (dirs : List (List String)) (qs : List (List String)) :
    List (List String) :=
  qs.foldl (fun d a => if d.contains a then d else d ++ [a]) dirs

/-- `path.exists()` inside the workspace model: the path is a file, a
created directory, or the workspace root itself (created by
`FileTool.__init__`). -/
def pathExists (root : List String) (fs : FS) (q : List String) : Bool :=
  (fsGet fs.files q).isSome || fs.dirs.contains q || q = root

/-- `path.is_dir()` inside the workspace model. -/
def pathIsDir (root : List String) (fs : FS) (q : List String) : Bool :=
  fs.dirs.contains q || q = root

/-- `str(IsADirectoryError)` (text abstracted; only its occurrence
matters to the embedded control flow, never its wording). -/
def isADirMsg (filepath : String) : String :=
  "Is a directory: " ++ filepath

/-- `str(OSError)` when `mkdir(parents=True)` meets an existing file
(text abstracted as for `isADirMsg`). -/
def fileExistsMsg (p : String) : String :=
  "File exists: " ++ p

/-- Universal-newline translation applied by a text-mode read
(`open(..., 'r')` with the default `newline=None`): each `\r\n` pair
and each lone `\r` becomes `\n`. -/
def translateNewlinesAux : List Char → List Char
  | [] => []
  | [c] => if c = '\r' then ['\n'] else [c]
  | c :: d :: rest =>
    if c = '\r' then
      if d = '\n' then '\n' :: translateNewlinesAux rest
      else '\n' :: translateNewlinesAux (d :: rest)
    else c :: translateNewlinesAux (d :: rest)

/-- What `await f.read()` returns for a file whose stored text is `c`:
the universal-newline translation of `c`. -/
def pyReadText (c : String) : String :=
  String.mk (translateNewlinesAux c.toList)

/-- `FileTool.read_file` (file_tools.py 24-40): validate, report a
missing file as a non-fatal message, otherwise read in text mode (which
applies universal-newline translation to the stored text); every
exception is caught and rendered as `"Error reading file: ..."`. -/
def read_file (root : List String) (fs : FS) (filepath : String) : String :=
  match validate_path root filepath with
  | Except.error e => "Error reading file: " ++ e
  | Except.ok q =>
    if pathExists root fs q = false then
      "Error: File " ++ filepath ++ " does not exist"
    else
      match fsGet fs.files q with
      | some c => pyReadText c
      | none => "Error reading file: " ++ isADirMsg filepath

/-- `FileTool.write_file` (file_tools.py 42-58): validate, create the
missing parent directories, write the content; exceptions (writing onto
a directory, a parent that is a file) are caught and rendered as
`"Error writing file: ..."`.  Returns the reply string and the updated
filesystem.  The text-mode write with `newline=None` maps each `\n` to
`os.linesep`, the identity on the POSIX hosts this system targets, so
the stored text is the content unchanged (the read side is where
universal-newline translation happens, see `pyReadText`). -/
def write_file (root : List String) (fs : FS) (filepath content : String) :
    String × FS :=
  match validate_path root filepath with
  | Except.error e => ("Error writing file: " ++ e, fs)
  | Except.ok q =>
    if fs.dirs.contains q || q = root then
      ("Error writing file: " ++ isADirMsg filepath, fs)
    else if (properAncestors q).any (fun a => (fsGet fs.files a).isSome) then
      ("Error writing file: " ++ fileExistsMsg filepath, fs)
    else
      ("Successfully wrote " ++ toString content.length ++
         " characters to " ++ filepath,
       ⟨fsSet fs.files q content, addDirs fs.dirs (properAncestors q)⟩)

/-- One entry of a `list_files` listing: name, kind, size in bytes. -/
structure DirEntry where
  name : String
  isDir : Bool
  size : Nat
deriving DecidableEq

/-- The immediate children of a directory in the workspace model. -/
def childrenOf (fs : FS) (q : List String) : List DirEntry :=
  fs.files.filterMap
    (fun kv =>
      if kv.1.length = q.length + 1 && q.isPrefixOf kv.1 then
        some ⟨kv.1.getLastD "", false, kv.2.utf8ByteSize⟩
      else none)
  ++ fs.dirs.filterMap
    (fun d =>
      if d.length = q.length + 1 && q.isPrefixOf d then
        some ⟨d.getLastD "", true, 0⟩
      else none)

/-- `FileTool.list_files` (file_tools.py 60-86): validate, report a
missing or non-directory path as a non-fatal message, otherwise render
the entries.  `render` stands for the external `json.dumps`. -/
def list_files (render : List DirEntry → String) (root : List String)
    (fs : FS) (directory : String) : String :=
  match validate_path root directory with
  | Except.error e => "Error listing directory: " ++ e
  | Except.ok q =>
    if pathExists root fs q = false then
      "Error: Directory " ++ directory ++ " does not exist"
    else if pathIsDir root fs q = false then
      "Error: " ++ directory ++ " is not a directory"
    else render (childrenOf fs q)

/-- `FileTool.delete_file` (file_tools.py 88-102): validate, report a
missing file, otherwise `unlink` (which fails on a directory, caught and
rendered). -/
def delete_file (root : List String) (fs : FS) (filepath : String) :
    String × FS :=
  match validate_path root filepath with
  | Except.error e => ("Error deleting file: " ++ e, fs)
  | Except.ok q =>
    if pathExists root fs q = false then
      ("Error: File " ++ filepath ++ " does not exist", fs)
    else if fs.dirs.contains q || q = root then
      ("Error deleting file: " ++ isADirMsg filepath, fs)
    else
      ("Successfully deleted " ++ filepath, ⟨fsErase fs.files q, fs.dirs⟩)

/-- `FileTool.create_directory` (file_tools.py 104-115):
`mkdir(parents=True, exist_ok=True)`; a file standing where a directory
must go raises, caught and rendered. -/
def create_directory (root : List String) (fs : FS) (directory : String) :
    String × FS :=
  match validate_path root directory with
  | Except.error e => ("Error creating directory: " ++ e, fs)
  | Except.ok q =>
    if (fsGet fs.files q).isSome ||
        (properAncestors q).any (fun a => (fsGet fs.files a).isSome) then
      ("Error creating directory: " ++ fileExistsMsg directory, fs)
    else
      ("Successfully created directory " ++ directory,
       ⟨fs.files, addDirs fs.dirs (properAncestors q ++ [q])⟩)

/- ====================================================================
   Sandbox executor: `CodeExecutor.execute_python`
   (src/runtime/exectutor.py 11-57).

   The Docker daemon is external; one invocation of
   `self.client.containers.run(...)` either yields a container or
   raises.  Per the docker SDK, `container.wait(timeout=...)` raises a
   `requests` timeout error when the wall clock expires, and with
   `detach=True` the `docker.errors.ContainerError` named in the
   `except` clause can only come from the `containers.run` call itself.
   A `DockerBehavior` records which of these the daemon does on one
   invocation; `WaitOutcome.timedOut` also stands for any other
   exception raised inside the `try` block after creation.
   ==================================================================== -/

/-- What happens after the container was successfully created. -/
inductive WaitOutcome
  | exited (statusCode : Int) (out err : String)
  | timedOut (msg : String)
deriving DecidableEq

/-- What the container runtime does on one `execute_python` invocation. -/
inductive DockerBehavior
  | created (w : WaitOutcome)
  | provisionError (msg : String)
  | containerErrorRaised (msg : String)
deriving DecidableEq

/-- The Python result dictionary of `execute_python`: the keys present
depend on the branch that built it (`result.get` reads them optionally
downstream). -/
structure PyDict where
  success : Bool
  stdout : Option String
  stderr : Option String
  exit_code : Option Int
  error : Option String
deriving DecidableEq

/-- The keyword arguments of the `containers.run` call
(exectutor.py 20-34). -/
structure ContainerConfig where
  image : String
  mem_limit : String
  working_dir : String
  network_disabled : Bool
  remove : Bool
  detach : Bool
deriving DecidableEq

/-- The configuration `execute_python` passes to `containers.run`:
`network_disabled=False`, `remove=False`, `detach=True`
(exectutor.py 20-34). -/
def containerRunConfig : ContainerConfig :=
  ⟨"python:3.11-slim", "512m", "/workspace", false, false, true⟩

/-- `CodeExecutor.execute_python` (exectutor.py 11-57).  First component:
the returned dictionary, or the exception that escapes (only
`docker.errors.ContainerError` is caught).  Second component: how many
times the `finally` block removed the container (`container.remove` runs
exactly when `container` is not `None`). -/
def executorExecutePython (b : DockerBehavior) :
    Except String PyDict × Nat :=
  match b with
  | DockerBehavior.provisionError msg => (Except.error msg, 0)
  | DockerBehavior.containerErrorRaised msg =>
    (Except.ok ⟨false, none, none, none, some msg⟩, 0)
  | DockerBehavior.created (WaitOutcome.exited code out err) =>
    (Except.ok ⟨code == 0, some out, some err, some code, none⟩, 1)
  | DockerBehavior.created (WaitOutcome.timedOut msg) =>
    (Except.error msg, 1)

/- ====================================================================
   Code tools: `CodeTools` (src/tools/code_tools.py).
   ==================================================================== -/

/-- `CodeTools.execute_python` (code_tools.py 12-22): format the
executor dictionary for the model; an exception from the executor
propagates. -/
def codeToolsExecutePython (b : DockerBehavior) : Except String String :=
  match (executorExecutePython b).1 with
  | Except.error e => Except.error e
  | Except.ok d =>
    if d.success then
      Except.ok ("Code executed successfully.\n\nOutput:\n" ++ d.stdout.getD "")
    else
      Except.ok ("Code execution failed.\n\nError:\n" ++
        d.stderr.getD (d.error.getD "Unknown error"))

/-- `str(AttributeError)` raised by `self.executor.execute_bash(...)`:
the `CodeExecutor` class (exectutor.py) defines only `__init__` and
`execute_python`, so the attribute lookup fails before anything runs. -/
def bashAttrErrMsg : String :=
  sQuote ++ "CodeExecutor" ++ sQuote ++ " object has no attribute " ++
    sQuote ++ "execute_bash" ++ sQuote

/-- `CodeTools.execute_bash` (code_tools.py 24-33): it calls
`self.executor.execute_bash(command)`, and `CodeExecutor` has no such
attribute, so the call raises `AttributeError` unconditionally. -/
def codeToolsExecuteBash (_command : String) : Except String String :=
  Except.error bashAttrErrMsg

/-- One advertised tool: name, description, required parameter names
(the JSON schema boilerplate of the source is not needed by any
property). -/
structure ToolDefinition where
  name : String
  description : String
  required : List String
deriving DecidableEq

/-- `get_code_tools_definition` (code_tools.py 35-72). -/
def get_code_tools_definition : List ToolDefinition :=
  [⟨"execute_python",
    "Execute Python code in an isolated environment. The code has access to the workspace directory mounted at /workspace. Use this to run Python scripts, process data, or perform computations.",
    ["code"]⟩,
   ⟨"execute_bash",
    "Execute a bash command in an isolated environment. The workspace directory is mounted at /workspace. Use this for file operations, running shell commands, or installing packages.",
    ["command"]⟩]

/-- `get_file_tools_definition` (file_tools.py 117-192). -/
def get_file_tools_definition : List ToolDefinition :=
  [⟨"read_file", "Read the contents of a file from the workspace",
    ["filepath"]⟩,
   ⟨"write_file", "Write content to a file in the workspace",
    ["filepath", "content"]⟩,
   ⟨"list_files", "List all files and directories in a directory", []⟩,
   ⟨"create_directory", "Create a new directory in the workspace",
    ["directory"]⟩]

/- ====================================================================
   Model gateway: `LLMGateway.chat` (src/llm/gateway.py 13-67).
   ==================================================================== -/

/-- One message of the conversation (`{"role": ..., "content": ...}`). -/
structure Message where
  role : String
  content : String
deriving DecidableEq

/-- Structured tool-call arguments after `json.loads` (the source may
receive them as a raw string and parses them before dispatch; the
parsing itself carries no property and is elided). -/
abbrev Args := List (String × String)

/-- One tool call of a model reply. -/
structure ToolCall where
  id : String
  name : String
  arguments : Args
deriving DecidableEq

/-- The normalized reply `{content, tool_calls}` built by
`LLMGateway.chat` (gateway.py 46-60). -/
structure Reply where
  content : String
  tool_calls : List ToolCall
deriving DecidableEq

/-- The raw provider message before normalization: `message.content` may
be `None`, `message.tool_calls` may be absent or `None`. -/
structure ProviderMessage where
  content : Option String
  tool_calls : Option (List ToolCall)
deriving DecidableEq

/-- `LLMGateway.chat` (gateway.py 13-67): forward the conversation to
the provider (`call`), normalize the reply (`content or ""`, missing
tool calls become `[]`); a provider exception is logged and re-raised
unchanged. -/
def gatewayChat (call : List Message → Except String ProviderMessage)
    (msgs : List Message) : Except String Reply :=
  match call msgs with
  | Except.error e => Except.error e
  | Except.ok m => Except.ok ⟨m.content.getD "", m.tool_calls.getD []⟩

/- ====================================================================
   Agent: `Agent._execute_tool` and `Agent.run`
   (src/core/agent.py 80-200).
   ==================================================================== -/

/-- The state the tool handlers thread through one run: the workspace
filesystem, plus the container runtime schedule (`sandbox n` is what the
Docker daemon does on the `n`-th sandbox invocation of the run) and the
count of sandbox invocations made so far. -/
structure AgentState where
  fs : FS
  sandbox : Nat → DockerBehavior
  sandboxCalls : Nat

/-- `arguments[k]`: a missing key raises `KeyError`, whose `str` is the
quoted key. -/
def getArg (args : Args) (k : String) : Except String String :=
  match args.lookup k with
  | some v => Except.ok v
  | none => Except.error (sQuote ++ k ++ sQuote)

/-- `arguments.get(k, d)`. -/
def getArgD (args : Args) (k d : String) : String :=
  (args.lookup k).getD d

/-- The dispatch chain of `Agent._execute_tool` (agent.py 90-111) before
its `except` clause: each branch either returns the handler reply or
carries the exception the branch raised.  `render` stands for the
external `json.dumps` used by `list_files`; `root` is the workspace
root. -/
def dispatch_tool (render : List DirEntry → String) (root : List String)
    (st : AgentState) (tool_name : String) (args : Args) :
    Except String String × AgentState :=
  if tool_name = "read_file" then
    match getArg args "filepath" with
    | Except.error e => (Except.error e, st)
    | Except.ok fp => (Except.ok (read_file root st.fs fp), st)
  else if tool_name = "write_file" then
    match getArg args "filepath" with
    | Except.error e => (Except.error e, st)
    | Except.ok fp =>
      match getArg args "content" with
      | Except.error e => (Except.error e, st)
      | Except.ok c =>
        let r := write_file root st.fs fp c
        (Except.ok r.1, ⟨r.2, st.sandbox, st.sandboxCalls⟩)
  else if tool_name = "list_files" then
    (Except.ok (list_files render root st.fs (getArgD args "directory" ".")),
     st)
  else if tool_name = "create_directory" then
    match getArg args "directory" with
    | Except.error e => (Except.error e, st)
    | Except.ok d =>
      let r := create_directory root st.fs d
      (Except.ok r.1, ⟨r.2, st.sandbox, st.sandboxCalls⟩)
  else if tool_name = "execute_python" then
    match getArg args "code" with
    | Except.error e => (Except.error e, st)
    | Except.ok _ =>
      (codeToolsExecutePython (st.sandbox st.sandboxCalls),
       ⟨st.fs, st.sandbox, st.sandboxCalls + 1⟩)
  else if tool_name = "execute_bash" then
    match getArg args "command" with
    | Except.error e => (Except.error e, st)
    | Except.ok cmd => (codeToolsExecuteBash cmd, st)
  else
    (Except.ok ("Error: Unknown tool " ++ sQuote ++ tool_name ++ sQuote), st)

/-- `Agent._execute_tool` (agent.py 80-115): run the dispatch chain and
convert any exception into the non-fatal reply
`"Error executing {tool_name}: {e}"`. -/
def execute_tool (render : List DirEntry → String) (root : List String)
    (st : AgentState) (tool_name : String) (args : Args) :
    String × AgentState :=
  match dispatch_tool render root st tool_name args with
  | (Except.ok s, st2) => (s, st2)
  | (Except.error e, st2) =>
    ("Error executing " ++ tool_name ++ ": " ++ e, st2)

/-- The ToolResult message appended for one tool call (agent.py 166-170):
role `user`, content `"Tool {name} result:\n{result}"` with the name
quoted. -/
def toolMsg (name res : String) : Message :=
  ⟨"user", "Tool " ++ sQuote ++ name ++ sQuote ++ " result:\n" ++ res⟩

/-- The tool-call loop of one iteration (agent.py 159-170): execute the
calls of the reply strictly in order, threading the tool state, and
collect the ToolResult messages in the same order. -/
def runTools {σ : Type} (exec : σ → String → Args → String × σ) :
    σ → List ToolCall → List Message × σ
  | s, [] => ([], s)
  | s, tc :: rest =>
    let r := exec s tc.name tc.arguments
    let next := runTools exec r.2 rest
    (toolMsg tc.name r.1 :: next.1, next.2)

/-- The `run` return value (agent.py 177-200): the result dictionary,
plus the ghost field `modelCalls` counting the Gateway invocations the
run performed (it has no counterpart key in the source and exists only
to state round-trip bounds). -/
structure RunResult where
  success : Bool
  result : Option String
  error : Option String
  iterations : Nat
  history : List Message
  modelCalls : Nat
deriving DecidableEq

/-- The exhaustion reply text (agent.py 188). -/
def maxIterMsg : String := "Maximum iterations reached without completion"

/-- The model as the orchestrator sees it: the full conversation in,
a normalized reply (or a raised provider error) out. -/
abbrev Model := List Message → Except String Reply

/-- The `while` loop of `Agent.run` (agent.py 138-200), by fuel:
`fuel = max_iterations - iteration_count` at entry.  Each pass
increments the iteration counter, calls the model, appends the
assistant message, and either finishes (no tool calls), runs the tools
and loops, or — when the model call raises — returns the `Failed`
dictionary with the conversation collected so far.  Exhausted fuel is
the `Exhausted` return (agent.py 184-191). -/
def runAux {σ : Type} (model : Model)
    (exec : σ → String → Args → String × σ) :
    Nat → Nat → Nat → σ → List Message → RunResult
  | 0, iter, calls, _, conv =>
    ⟨false, some maxIterMsg, none, iter, conv, calls⟩
  | fuel + 1, iter, calls, s, conv =>
    match model conv with
    | Except.error e =>
      ⟨false, none, some e, iter + 1, conv, calls + 1⟩
    | Except.ok r =>
      let conv1 := conv ++ [⟨"assistant", r.content⟩]
      if r.tool_calls.isEmpty then
        ⟨true, some r.content, none, iter + 1, conv1, calls + 1⟩
      else
        let p := runTools exec s r.tool_calls
        runAux model exec fuel (iter + 1) (calls + 1) p.2 (conv1 ++ p.1)

/-- `Agent.run` (agent.py 117-200): the conversation opens with the
system prompt (appended by `__init__`) and the task as a user message;
the loop starts with `iteration_count = 0`. -/
def agentRun {σ : Type} (systemPrompt : String) (model : Model)
    (exec : σ → String → Args → String × σ) (s0 : σ)
    (maxIterations : Nat) (task : String) : RunResult :=
  runAux model exec maxIterations 0 0 s0
    [⟨"system", systemPrompt⟩, ⟨"user", task⟩]

/- ====================================================================
   Concrete instances used by the witnesses and counterexamples below.
   ==================================================================== -/

/-- A rendering stand-in for `json.dumps` in concrete runs. -/
def demoRender : List DirEntry → String := fun _ => ""

/-- A trivial tool environment for runs whose tool outputs are
irrelevant. -/
def demoUnitExec : Unit → String → Args → String × Unit :=
  fun s _ _ => ("ok", s)

/-- A model that answers every conversation with one tool call. -/
def c2DemoModel : Model :=
  fun _ =>
    Except.ok ⟨"working", [⟨"1", "execute_python", [("code", "1+1")]⟩]⟩

/-- A model that first requests one `execute_python` call and then
stops. -/
def c3DemoModel : Model :=
  fun conv =>
    if conv.length ≤ 2 then
      Except.ok
        ⟨"running code",
         [⟨"call1", "execute_python", [("code", "print(1)")]⟩]⟩
    else Except.ok ⟨"done", []⟩

/-- A run state whose container runtime cannot provision any container
(the daemon is unreachable). -/
def c3DemoState : AgentState :=
  ⟨⟨[], []⟩, fun _ => DockerBehavior.provisionError "Docker APIError", 0⟩

/-- A reply carrying two tool calls. -/
def c8DemoReply : Reply :=
  ⟨"step",
   [⟨"1", "write_file", [("filepath", "a.txt"), ("content", "hi")]⟩,
    ⟨"2", "read_file", [("filepath", "a.txt")]⟩]⟩

/-- A model that always returns `c8DemoReply`. -/
def c8DemoModel : Model := fun _ => Except.ok c8DemoReply

/-- A provider whose transport always fails. -/
def c9DemoCall : List Message → Except String ProviderMessage :=
  fun _ => Except.error "AuthenticationError: invalid API key"

/- ====================================================================
   Helper lemmas.
   ==================================================================== -/

/-- `pathChars` distributes over appending of segment lists. -/
theorem pathChars_append (l1 l2 : List String) :
    pathChars (l1 ++ l2) = pathChars l1 ++ pathChars l2 := by
  induction l1 with
  | nil => simp [pathChars]
  | cons s rest ih => simp [pathChars, ih]

/-- The printed form of a longer path starts with the printed form of
any initial segment list. -/
theorem pathStr_append_pyStartsWith (root t : List String) :
    pyStartsWith (pathStr (root ++ t)) (pathStr root) = true := by
  cases root with
  | nil =>
    cases t with
    | nil => rfl
    | cons a as =>
      show (String.toList (pathStr ([] : List String))).isPrefixOf
        (String.toList (pathStr (a :: as))) = true
      simp [pathStr, pathChars, String.toList, List.isPrefixOf]
  | cons r rs =>
    show (String.toList (pathStr (r :: rs))).isPrefixOf
      (String.toList (pathStr ((r :: rs) ++ t))) = true
    cases h : (r :: rs) ++ t with
    | nil => simp at h
    | cons b bs =>
      rw [← h]
      simp only [pathStr, String.toList]
      rw [pathChars_append]
      exact List.isPrefixOf_iff_prefix.mpr (List.prefix_append _ _)

/-- A resolved path that lies strictly below the workspace root passes
`_validate_path`. -/
theorem validate_path_of_strictDescendant (root : List String) (p : String)
    (h : isStrictDescendant (joinResolve root p) root = true) :
    validate_path root p = Except.ok (joinResolve root p) := by
  unfold isStrictDescendant at h
  rw [Bool.and_eq_true] at h
  obtain ⟨t, ht⟩ := List.isPrefixOf_iff_prefix.mp h.1
  have hsw : pyStartsWith (pathStr (joinResolve root p)) (pathStr root)
      = true := by
    rw [← ht]; exact pathStr_append_pyStartsWith root t
  unfold validate_path
  simp [hsw]

/-- Looking up the path just written returns the written content. -/
theorem fsGet_fsSet (files : List (List String × String))
    (k : List String) (v : String) : fsGet (fsSet files k v) k = some v := by
  simp [fsSet, fsGet]

/- ====================================================================
   C1 — path containment of the workspace guard.
   ==================================================================== -/

/-- C1 counterexample: the relative path `../agent2/secret` resolves
outside the workspace root `/ws/agent` (it is not a strict descendant),
yet `_validate_path` accepts it — the string-prefix check also matches
the sibling directory `/ws/agent2` — and `read_file` then performs the
read and returns the sibling file's content instead of an access-denied
error. -/
theorem c1_counterexample :
    validate_path ["ws", "agent"] "../agent2/secret"
        = Except.ok ["ws", "agent2", "secret"]
      ∧ isStrictDescendant (joinResolve ["ws", "agent"] "../agent2/secret")
          ["ws", "agent"] = false
      ∧ read_file ["ws", "agent"]
          ⟨[(["ws", "agent2", "secret"], "secret-data")], []⟩
          "../agent2/secret" = "secret-data" := by
  refine ⟨?_, ?_, ?_⟩ <;> rfl

/-- C1 (amended): every workspace-guard operation denies the request —
returning its access-denied error string and leaving the filesystem
untouched, with no I/O performed — exactly when the resolved path's
string form does not start with the workspace root's string form.  (The
actual check is this string-prefix test, not strict-descendant
containment: the root itself and string-prefix siblings of the root are
admitted, see `c1_counterexample`.) -/
theorem c1_guard_denies (root : List String) (fs : FS)
    (render : List DirEntry → String) (p c : String)
    (h : pyStartsWith (pathStr (joinResolve root p)) (pathStr root)
        = false) :
    read_file root fs p = "Error reading file: " ++ accessDenied p
    ∧ write_file root fs p c
        = ("Error writing file: " ++ accessDenied p, fs)
    ∧ list_files render root fs p
        = "Error listing directory: " ++ accessDenied p
    ∧ create_directory root fs p
        = ("Error creating directory: " ++ accessDenied p, fs)
    ∧ delete_file root fs p
        = ("Error deleting file: " ++ accessDenied p, fs) := by
  have hv : validate_path root p = Except.error (accessDenied p) := by
    unfold validate_path
    simp [h]
  refine ⟨?_, ?_, ?_, ?_, ?_⟩ <;>
    simp [read_file, write_file, list_files, create_directory,
      delete_file, hv]

/-- C1 witness: the absolute-path injection `/etc/passwd` fails the
string-prefix test against root `/ws/agent` and every operation is
denied on it. -/
theorem c1_guard_denies_witness :
    (pyStartsWith (pathStr (joinResolve ["ws", "agent"] "/etc/passwd"))
        (pathStr ["ws", "agent"]) = false)
    ∧ read_file ["ws", "agent"] ⟨[], []⟩ "/etc/passwd"
        = "Error reading file: " ++ accessDenied "/etc/passwd"
    ∧ write_file ["ws", "agent"] ⟨[], []⟩ "/etc/passwd" "x"
        = ("Error writing file: " ++ accessDenied "/etc/passwd", ⟨[], []⟩) := by
  have h : pyStartsWith (pathStr (joinResolve ["ws", "agent"] "/etc/passwd"))
      (pathStr ["ws", "agent"]) = false := by rfl
  have hc := c1_guard_denies ["ws", "agent"] ⟨[], []⟩ demoRender
    "/etc/passwd" "x" h
  exact ⟨h, hc.1, hc.2.1⟩

/- ====================================================================
   C4 / C5 / C6 — the sandbox executor.
   ==================================================================== -/

/-- C4 counterexample: when the wall-clock timeout expires,
`container.wait` raises and `execute_python` propagates the exception
(only `docker.errors.ContainerError` is caught), so the executor does
not return an `ExecutionResult` carrying stdout, stderr and exit status
for the timeout case. -/
theorem c4_counterexample :
    executorExecutePython
        (DockerBehavior.created
          (WaitOutcome.timedOut "Read timed out. (read timeout=30)"))
      = (Except.error "Read timed out. (read timeout=30)", 1) := rfl

/-- C4 (amended): on completion by success or by non-zero exit the
executor returns (does not raise) the result dictionary carrying stdout,
stderr and the numeric exit status, with `success` true exactly for exit
status 0; on timeout the wait raises, the executor propagates the
exception, and the orchestrator's tool dispatch converts it into an
error ToolResult so the run loop continues. -/
theorem c4_execution_result_contract :
    (∀ (code : Int) (out err : String),
      executorExecutePython
          (DockerBehavior.created (WaitOutcome.exited code out err))
        = (Except.ok ⟨code == 0, some out, some err, some code, none⟩, 1))
    ∧ (∀ msg : String,
      executorExecutePython
          (DockerBehavior.created (WaitOutcome.timedOut msg))
        = (Except.error msg, 1))
    ∧ (∀ (render : List DirEntry → String) (root : List String) (fs : FS)
        (n : Nat) (c msg : String),
      execute_tool render root
          ⟨fs, fun _ => DockerBehavior.created (WaitOutcome.timedOut msg), n⟩
          "execute_python" [("code", c)]
        = ("Error executing execute_python: " ++ msg,
           ⟨fs, fun _ => DockerBehavior.created (WaitOutcome.timedOut msg),
            n + 1⟩)) := by
  refine ⟨fun code out err => rfl, fun msg => rfl, fun render root fs n c msg => rfl⟩

/-- C5: whenever the container was created, the `finally` block removes
it exactly once, on every exit path of `execute_python` — normal
completion, non-zero exit, and the exception (timeout) path. -/
theorem c5_teardown_exactly_once (w : WaitOutcome) :
    (executorExecutePython (DockerBehavior.created w)).2 = 1 := by
  cases w <;> rfl

/-- C6 counterexample: the configuration `execute_python` passes to
`containers.run` does not disable network access, so the claim that the
default denies network reachability is false. -/
theorem c6_counterexample : ¬ containerRunConfig.network_disabled = true := by
  decide

/-- C6 (amended): the executor's default configuration enables network
access from inside the sandbox: `containers.run` is called with
`network_disabled=False`. -/
theorem c6_network_enabled_by_default :
    containerRunConfig.network_disabled = false := rfl

/- ====================================================================
   C10 — the advertised but unimplemented `execute_bash` tool.
   ==================================================================== -/

/-- C10: for every command string, dispatching `execute_bash` raises
`AttributeError` inside `CodeTools.execute_bash` (the `CodeExecutor`
class defines no `execute_bash` method), which `_execute_tool` converts
into the error ToolResult `"Error executing execute_bash: ..."`; the run
state is unchanged (no sandbox invocation happens), even though the tool
is advertised in `get_code_tools_definition`. -/
theorem c10_execute_bash_unimplemented (cmd : String)
    (render : List DirEntry → String) (root : List String)
    (st : AgentState) :
    execute_tool render root st "execute_bash" [("command", cmd)]
      = ("Error executing execute_bash: " ++ bashAttrErrMsg, st)
    ∧ (get_code_tools_definition.map ToolDefinition.name).contains
        "execute_bash" = true := by
  exact ⟨rfl, rfl⟩

/- ====================================================================
   C2 / C8 / C9 — the orchestrator loop.
   ==================================================================== -/

/-- One loop pass under a reply that carries tool calls: the loop
recurses with the iteration counter incremented, one more model call
recorded, and the assistant message plus the tool results appended. -/
theorem runAux_tool_step {σ : Type} (model : Model)
    (exec : σ → String → Args → String × σ) (fuel iter calls : Nat)
    (s : σ) (conv : List Message) (r : Reply)
    (hm : model conv = Except.ok r) (hne : r.tool_calls ≠ []) :
    runAux model exec (fuel + 1) iter calls s conv
      = runAux model exec fuel (iter + 1) (calls + 1)
          (runTools exec s r.tool_calls).2
          ((conv ++ [⟨"assistant", r.content⟩])
            ++ (runTools exec s r.tool_calls).1) := by
  have hie : r.tool_calls.isEmpty = false := by
    cases hc : r.tool_calls with
    | nil => exact absurd hc hne
    | cons a l => rfl
  simp only [runAux]
  rw [hm]
  simp [hie, List.append_assoc]

/-- Under a model that always requests at least one tool call, the loop
burns all its fuel, each pass one model call, and ends exhausted. -/
theorem runAux_exhausts {σ : Type} (model : Model)
    (exec : σ → String → Args → String × σ)
    (H : ∀ conv, ∃ r, model conv = Except.ok r ∧ r.tool_calls ≠ []) :
    ∀ (fuel iter calls : Nat) (s : σ) (conv : List Message),
      ∃ rest, runAux model exec fuel iter calls s conv
        = ⟨false, some maxIterMsg, none, iter + fuel, conv ++ rest,
           calls + fuel⟩ := by
  intro fuel
  induction fuel with
  | zero =>
    intro iter calls s conv
    exact ⟨[], by simp [runAux]⟩
  | succ n ih =>
    intro iter calls s conv
    obtain ⟨r, hm, hne⟩ := H conv
    obtain ⟨rest2, h2⟩ := ih (iter + 1) (calls + 1)
      (runTools exec s r.tool_calls).2
      ((conv ++ [⟨"assistant", r.content⟩]) ++ (runTools exec s r.tool_calls).1)
    refine ⟨[⟨"assistant", r.content⟩] ++ (runTools exec s r.tool_calls).1
      ++ rest2, ?_⟩
    rw [runAux_tool_step model exec n iter calls s conv r hm hne, h2]
    have e1 : iter + 1 + n = iter + (n + 1) := by omega
    have e2 : calls + 1 + n = calls + (n + 1) := by omega
    rw [e1, e2]
    simp [List.append_assoc]

/-- C2: for every iteration ceiling `N ≥ 1` and every model that replies
with at least one tool call on every turn, `Agent.run` performs exactly
`N` model round-trips, then ends exhausted: an unsuccessful but
non-error result whose `result` text is the exhaustion message, with
`iterations = N` and the partial conversation (opening with the system
prompt and the task) intact. -/
theorem c2_iteration_ceiling {σ : Type} (systemPrompt task : String)
    (model : Model) (exec : σ → String → Args → String × σ) (s0 : σ)
    (N : Nat) (hN : 1 ≤ N)
    (H : ∀ conv, ∃ r, model conv = Except.ok r ∧ r.tool_calls ≠ []) :
    (agentRun systemPrompt model exec s0 N task).success = false
    ∧ (agentRun systemPrompt model exec s0 N task).error = none
    ∧ (agentRun systemPrompt model exec s0 N task).result = some maxIterMsg
    ∧ (agentRun systemPrompt model exec s0 N task).iterations = N
    ∧ (agentRun systemPrompt model exec s0 N task).modelCalls = N
    ∧ ∃ rest, (agentRun systemPrompt model exec s0 N task).history
        = [⟨"system", systemPrompt⟩, ⟨"user", task⟩] ++ rest := by
  obtain ⟨rest, h⟩ := runAux_exhausts model exec H N 0 0 s0
    [⟨"system", systemPrompt⟩, ⟨"user", task⟩]
  unfold agentRun
  rw [h]
  exact ⟨rfl, rfl, rfl, by simp, by simp, rest, by simp⟩

/-- C2 witness: ceiling 3 with a model that always asks for a tool call
ends exhausted after exactly 3 round-trips. -/
theorem c2_iteration_ceiling_witness :
    (1 ≤ 3)
    ∧ (agentRun "sys" c2DemoModel demoUnitExec () 3 "task").success = false
    ∧ (agentRun "sys" c2DemoModel demoUnitExec () 3 "task").error = none
    ∧ (agentRun "sys" c2DemoModel demoUnitExec () 3 "task").iterations = 3
    ∧ (agentRun "sys" c2DemoModel demoUnitExec () 3 "task").modelCalls = 3 := by
  have H : ∀ conv, ∃ r, c2DemoModel conv = Except.ok r
      ∧ r.tool_calls ≠ [] :=
    fun conv => ⟨_, rfl, by decide⟩
  have h := c2_iteration_ceiling "sys" "task" c2DemoModel demoUnitExec ()
    3 (by decide) H
  exact ⟨by decide, h.1, h.2.1, h.2.2.2.1, h.2.2.2.2.1⟩

/-- The tool-result messages produced for one reply: exactly one message
per tool call, and the `i`-th message is labelled with the name of the
`i`-th tool call. -/
theorem runTools_spec {σ : Type} (exec : σ → String → Args → String × σ) :
    ∀ (tcs : List ToolCall) (s : σ),
      (runTools exec s tcs).1.length = tcs.length
      ∧ ∀ i, i < tcs.length →
          ∃ res tc, tcs[i]? = some tc
            ∧ (runTools exec s tcs).1[i]? = some (toolMsg tc.name res) := by
  intro tcs
  induction tcs with
  | nil =>
    intro s
    exact ⟨rfl, fun i hi => by simp at hi⟩
  | cons tc rest ih =>
    intro s
    constructor
    · simp [runTools, (ih (exec s tc.name tc.arguments).2).1]
    · intro i hi
      cases i with
      | zero =>
        exact ⟨(exec s tc.name tc.arguments).1, tc, by simp,
          by simp [runTools]⟩
      | succ j =>
        obtain ⟨res, tc2, h1, h2⟩ :=
          (ih (exec s tc.name tc.arguments).2).2 j (by simpa using hi)
        refine ⟨res, tc2, by simpa using h1, ?_⟩
        simpa [runTools] using h2

/-- C8: when a reply carries `n ≥ 1` tool calls, the loop executes them
sequentially in the order of the `tool_calls` array and appends exactly
`n` tool-result messages — the `i`-th labelled with the name of the
`i`-th call — to the conversation before the next model call. -/
theorem c8_tool_results_in_order {σ : Type} (model : Model)
    (exec : σ → String → Args → String × σ) (fuel iter calls : Nat)
    (s : σ) (conv : List Message) (r : Reply)
    (hm : model conv = Except.ok r) (hne : r.tool_calls ≠ []) :
    runAux model exec (fuel + 1) iter calls s conv
      = runAux model exec fuel (iter + 1) (calls + 1)
          (runTools exec s r.tool_calls).2
          ((conv ++ [⟨"assistant", r.content⟩])
            ++ (runTools exec s r.tool_calls).1)
    ∧ (runTools exec s r.tool_calls).1.length = r.tool_calls.length
    ∧ ∀ i, i < r.tool_calls.length →
        ∃ res tc, r.tool_calls[i]? = some tc
          ∧ (runTools exec s r.tool_calls).1[i]?
              = some (toolMsg tc.name res) :=
  ⟨runAux_tool_step model exec fuel iter calls s conv r hm hne,
   (runTools_spec exec r.tool_calls s).1,
   (runTools_spec exec r.tool_calls s).2⟩

/-- C8 witness: a reply with two tool calls produces exactly two
tool-result messages, in order, before the loop recurses. -/
theorem c8_tool_results_in_order_witness :
    (c8DemoModel [⟨"system", "s"⟩] = Except.ok c8DemoReply)
    ∧ (runTools demoUnitExec () c8DemoReply.tool_calls).1.length
        = c8DemoReply.tool_calls.length
    ∧ runAux c8DemoModel demoUnitExec 1 0 0 () [⟨"system", "s"⟩]
        = runAux c8DemoModel demoUnitExec 0 1 1
            (runTools demoUnitExec () c8DemoReply.tool_calls).2
            (([⟨"system", "s"⟩] ++ [⟨"assistant", c8DemoReply.content⟩])
              ++ (runTools demoUnitExec () c8DemoReply.tool_calls).1) := by
  have h := c8_tool_results_in_order c8DemoModel demoUnitExec 0 0 0 ()
    [⟨"system", "s"⟩] c8DemoReply rfl (by decide)
  exact ⟨rfl, h.2.1, h.1⟩

/-- C9: when the provider call behind the Gateway raises, the loop
returns at once — the failing call is the last model call, no tool
results are appended — with an unsuccessful result that carries the
error and preserves the conversation collected so far. -/
theorem c9_provider_error_aborts {σ : Type}
    (call : List Message → Except String ProviderMessage)
    (exec : σ → String → Args → String × σ)
    (fuel iter calls : Nat) (s : σ) (conv : List Message) (e : String)
    (h : call conv = Except.error e) :
    runAux (gatewayChat call) exec (fuel + 1) iter calls s conv
      = ⟨false, none, some e, iter + 1, conv, calls + 1⟩ := by
  have hg : gatewayChat call conv = Except.error e := by
    unfold gatewayChat
    rw [h]
  unfold runAux
  rw [hg]

/-- C9 witness: a provider whose transport always fails aborts the run
on its first model call with the conversation preserved. -/
theorem c9_provider_error_aborts_witness :
    (c9DemoCall [⟨"system", "s"⟩, ⟨"user", "t"⟩]
        = Except.error "AuthenticationError: invalid API key")
    ∧ runAux (gatewayChat c9DemoCall) demoUnitExec 5 0 0 ()
          [⟨"system", "s"⟩, ⟨"user", "t"⟩]
        = ⟨false, none, some "AuthenticationError: invalid API key", 1,
           [⟨"system", "s"⟩, ⟨"user", "t"⟩], 1⟩ :=
  ⟨rfl,
   c9_provider_error_aborts c9DemoCall demoUnitExec 4 0 0 ()
     [⟨"system", "s"⟩, ⟨"user", "t"⟩] "AuthenticationError: invalid API key"
     rfl⟩

/- ====================================================================
   C3 — provisioning failures are not fatal to the run.
   ==================================================================== -/

/-- C3 counterexample: a run in which the container runtime cannot be
provisioned (the daemon call raises) does not transition to Failed — the
raised error is converted into a ToolResult message and the run goes on
to complete successfully on the next iteration. -/
theorem c3_counterexample :
    (agentRun "sys" c3DemoModel (execute_tool demoRender ["ws"]) c3DemoState
        10 "task").success = true
    ∧ (agentRun "sys" c3DemoModel (execute_tool demoRender ["ws"])
        c3DemoState 10 "task").error = none
    ∧ (agentRun "sys" c3DemoModel (execute_tool demoRender ["ws"])
        c3DemoState 10 "task").iterations = 2
    ∧ (agentRun "sys" c3DemoModel (execute_tool demoRender ["ws"])
        c3DemoState 10 "task").history[3]?
      = some (toolMsg "execute_python"
          ("Error executing execute_python: " ++ "Docker APIError")) := by
  refine ⟨?_, ?_, ?_, ?_⟩ <;> rfl

/-- C3 (amended): when the container runtime cannot provision the
sandbox, `execute_python` raises, the exception escapes the executor and
`CodeTools`, and `Agent._execute_tool` catches it and returns the
non-fatal ToolResult `"Error executing execute_python: ..."`; the run is
not transitioned to Failed (see `c3_counterexample` for a full run that
continues past the failure). -/
theorem c3_provision_error_is_tool_result (render : List DirEntry → String)
    (root : List String) (fs : FS) (sched : Nat → DockerBehavior)
    (n : Nat) (code msg : String)
    (h : sched n = DockerBehavior.provisionError msg) :
    execute_tool render root ⟨fs, sched, n⟩ "execute_python"
        [("code", code)]
      = ("Error executing execute_python: " ++ msg, ⟨fs, sched, n + 1⟩) := by
  have hd : dispatch_tool render root ⟨fs, sched, n⟩ "execute_python"
      [("code", code)]
      = (codeToolsExecutePython (sched n), ⟨fs, sched, n + 1⟩) := rfl
  have h2 : codeToolsExecutePython (sched n) = Except.error msg := by
    rw [h]; rfl
  unfold execute_tool
  rw [hd, h2]
  rfl

/-- C3 witness: a runtime that reports a provisioning failure on its
first invocation yields the error ToolResult. -/
theorem c3_provision_error_is_tool_result_witness :
    ((fun _ : Nat => DockerBehavior.provisionError "Docker APIError") 0
        = DockerBehavior.provisionError "Docker APIError")
    ∧ execute_tool demoRender ["ws"]
        ⟨⟨[], []⟩, fun _ => DockerBehavior.provisionError "Docker APIError",
         0⟩
        "execute_python" [("code", "print(1)")]
      = ("Error executing execute_python: " ++ "Docker APIError",
         ⟨⟨[], []⟩, fun _ => DockerBehavior.provisionError "Docker APIError",
          1⟩) :=
  ⟨rfl,
   c3_provision_error_is_tool_result demoRender ["ws"] ⟨[], []⟩
     (fun _ => DockerBehavior.provisionError "Docker APIError") 0
     "print(1)" "Docker APIError" rfl⟩

/- ====================================================================
   C7 — write/read round trip.
   ==================================================================== -/

/-- Universal-newline translation is the identity on text containing no
carriage return. -/
theorem translateNewlines_id :
    ∀ l : List Char, '\r' ∉ l → translateNewlinesAux l = l := by
  intro l
  induction l with
  | nil => intro h; rfl
  | cons c rest ih =>
    intro h
    rw [List.mem_cons, not_or] at h
    obtain ⟨h1, h2⟩ := h
    have hc : ¬ c = '\r' := fun he => h1 he.symm
    cases rest with
    | nil => simp [translateNewlinesAux, hc]
    | cons d rest2 =>
      simp only [translateNewlinesAux, if_neg hc]
      rw [ih h2]

/-- A text-mode read returns carriage-return-free stored text
unchanged. -/
theorem pyReadText_id (c : String) (h : '\r' ∉ c.toList) :
    pyReadText c = c := by
  unfold pyReadText
  rw [translateNewlines_id c.toList h]
  rfl

/-- C7 counterexample: the round trip is not byte-for-byte for every
text content: writing `"a\r\nb"` and reading it back returns `"a\nb"`,
because the text-mode read applies universal-newline translation to the
stored carriage-return/line-feed pair. -/
theorem c7_counterexample :
    read_file ["ws", "a"]
        (write_file ["ws", "a"] ⟨[], []⟩ "notes/file.txt" "a\r\nb").2
        "notes/file.txt" = "a\nb"
    ∧ ("a\nb" : String) ≠ "a\r\nb" := by
  exact ⟨rfl, by decide⟩

/-- C7 (amended): for every relative path that resolves strictly inside
the workspace and names neither an existing directory nor a path whose
missing parents are blocked by an existing file, `write_file` followed
by `read_file` returns the universal-newline translation of the written
content (each `\r\n` and each lone `\r` read back as `\n`); the round
trip is byte-for-byte exactly for content free of carriage returns,
which covers empty and ordinary multi-line content. -/
theorem c7_roundtrip_translated (root : List String) (fs : FS) (p c : String)
    (hrel : isAbsolutePath p = false)
    (hin : isStrictDescendant (joinResolve root p) root = true)
    (hnd : fs.dirs.contains (joinResolve root p) = false)
    (hanc : ∀ a ∈ properAncestors (joinResolve root p),
        fsGet fs.files a = none) :
    read_file root (write_file root fs p c).2 p = pyReadText c
    ∧ ( '\r' ∉ c.toList → read_file root (write_file root fs p c).2 p = c) := by
  have hv := validate_path_of_strictDescendant root p hin
  have hin2 := hin
  unfold isStrictDescendant at hin2
  rw [Bool.and_eq_true] at hin2
  have hqr : joinResolve root p ≠ root := by
    simpa using hin2.2
  have hanyf : (properAncestors (joinResolve root p)).any
      (fun a => (fsGet fs.files a).isSome) = false := by
    rw [List.any_eq_false]
    intro a ha
    rw [hanc a ha]
    simp
  have hnd2 : joinResolve root p ∉ fs.dirs := by
    simpa using hnd
  have hw : (write_file root fs p c).2
      = ⟨fsSet fs.files (joinResolve root p) c,
         addDirs fs.dirs (properAncestors (joinResolve root p))⟩ := by
    unfold write_file
    rw [hv]
    simp [hnd2, hqr, hanyf]
  have hmain : read_file root (write_file root fs p c).2 p = pyReadText c := by
    rw [hw]
    unfold read_file
    rw [hv]
    have hg : fsGet (fsSet fs.files (joinResolve root p) c)
        (joinResolve root p) = some c := fsGet_fsSet _ _ _
    simp [pathExists, hg]
  exact ⟨hmain, fun hcr => by rw [hmain, pyReadText_id c hcr]⟩

/-- C7 witness: writing then reading `notes/file.txt` in a fresh
workspace returns the carriage-return-free multi-line content byte for
byte. -/
theorem c7_roundtrip_translated_witness :
    (isAbsolutePath "notes/file.txt" = false)
    ∧ (isStrictDescendant (joinResolve ["ws", "a"] "notes/file.txt")
        ["ws", "a"] = true)
    ∧ ( '\r' ∉ ("hello\nworld" : String).toList)
    ∧ read_file ["ws", "a"]
        (write_file ["ws", "a"] ⟨[], []⟩ "notes/file.txt" "hello\nworld").2
        "notes/file.txt" = "hello\nworld" := by
  refine ⟨rfl, rfl, by decide, ?_⟩
  exact (c7_roundtrip_translated ["ws", "a"] ⟨[], []⟩ "notes/file.txt"
    "hello\nworld" rfl rfl rfl (fun a _ => rfl)).2 (by decide)
